import Mathlib

/-!
Verification development for the AI Flight Booking Assistant
(source: src/streamlit_app.py).

The development is a shallow embedding of the two core functions and their
helpers:

* `search_flights` (source lines 214-285): the flight-lookup client.  The
  Python function reads the `CLIENTSECRET` environment variable, builds the
  query-parameter dictionary for the Aviationstack `/v1/flights` endpoint,
  issues one `requests.get`, and normalizes the JSON body into a bounded
  result string.  Here the environment variable is the `env : Option String`
  argument, and the HTTP layer is an oracle
  `http : List (String × String) → HttpOutcome` mapping the parameter list
  the code builds to the outcome of the request (`requests.get` +
  `raise_for_status` + `response.json()`).  Python exceptions that the
  source catches are constructors of `HttpOutcome`; `search_flights`
  returns a plain `String`, reflecting that the source never lets an
  exception escape this function.

* `handle_tool_calls` (lines 288-306) and `get_openai_response`
  (lines 309-361): the orchestration loop.  The chat-completion provider is
  an oracle `p : Nat → AssistantMsg` giving the assistant response returned
  by the i-th provider round-trip; `json.loads` is an oracle
  `loads : String → Except String Args` mapping raw argument text to either
  the parsed object (modelled as a string-valued association list, which is
  the shape the registered tool schema declares) or the text of the
  `json.JSONDecodeError` it raises.  A Python exception escaping a function
  is an `Except.error`.  Python list objects live in an explicit `Store`
  (heap of list cells addressed by `Nat` references) so that the aliasing
  behaviour of `current_messages = list(messages)` and the in-place
  `append`/`extend` calls are visible.
-/

namespace FlightAssistant

/-- Model of Python `str.upper` for one ASCII character (the source applies
`.upper()` to IATA codes, which are ASCII). -/
def upChar (c : Char) : Char :=
  if 'a' ≤ c ∧ c ≤ 'z' then Char.ofNat (c.toNat - 32) else c

/-- Model of Python `str.upper` (ASCII range). -/
def upper (s : String) : String := String.mk (s.data.map upChar)

/-- Python truthiness of an `Optional[str]` value: `if x:` is taken iff the
value is present and a non-empty string.  Used for `if not api_key` (line
223) and the five `if field:` guards (lines 229-237). -/
def truthyOpt : Option String → Bool
  | none => false
  | some s => s != ""

/-- One endpoint object (`departure` / `arrival`) of an Aviationstack flight
entry.  `none` means the key is absent from the provider's JSON, so the
corresponding `.get(key, "N/A")` in the source yields the sentinel. -/
structure ApiEndpoint where
  airport : Option String
  iata : Option String
  scheduled : Option String
  estimated : Option String
  status : Option String
  deriving DecidableEq

/-- One entry of the provider's `data` array.  `flight_iata` collapses
`flight.get("flight", {}).get("iata", "N/A")`: it is `none` when either the
`flight` object or its `iata` key is absent.  Likewise `airline_name` for
`flight.get("airline", {}).get("name", "N/A")`. -/
structure ApiFlight where
  flight_iata : Option String
  airline_name : Option String
  departure : ApiEndpoint
  arrival : ApiEndpoint
  flight_status : Option String
  deriving DecidableEq

/-- Parsed JSON body of a successful (2xx) Aviationstack response.
`error = none` models `data.get("error")` being absent or falsy;
`error = some info` models a truthy error object whose optional `info`
field is `info` (line 245-246).  `data` models `data.get("data", [])`. -/
structure ApiBody where
  error : Option (Option String)
  data : List ApiFlight
  deriving DecidableEq

/-- Outcome of the HTTP interaction in the `try` block (lines 240-243):
`requests.get(..., timeout=10)` may raise a timeout or connection error,
`raise_for_status()` raises on a non-success HTTP status (all three are
`requests.exceptions.RequestException`s), and `response.json()` raises on
an unparseable body (caught by the generic `except Exception`).  `desc` is
the Python `str(e)` of the exception. -/
inductive HttpOutcome where
  | timeout (desc : String) : HttpOutcome
  | connectionError (desc : String) : HttpOutcome
  | statusError (desc : String) : HttpOutcome
  | invalidJson (desc : String) : HttpOutcome
  | ok (body : ApiBody) : HttpOutcome
  deriving DecidableEq

/-- Normalized departure/arrival sub-record built at lines 262-275. -/
structure EndpointRecord where
  airport : String
  iata : String
  scheduled : String
  estimated : String
  status : String
  deriving DecidableEq

/-- Normalized flight record (`info` dict, lines 259-277); field order is
the insertion order of the Python dict literal. -/
structure FlightRecord where
  flight_number : String
  airline : String
  departure : EndpointRecord
  arrival : EndpointRecord
  flight_status : String
  deriving DecidableEq

/-- `departure`/`arrival` normalization: each `.get(key, "N/A")`. -/
def toEndpointRecord (e : ApiEndpoint) : EndpointRecord :=
  { airport := e.airport.getD "N/A"
    iata := e.iata.getD "N/A"
    scheduled := e.scheduled.getD "N/A"
    estimated := e.estimated.getD "N/A"
    status := e.status.getD "N/A" }

/-- The `info` dict built for one flight entry (lines 259-277). -/
def toRecord (f : ApiFlight) : FlightRecord :=
  { flight_number := f.flight_iata.getD "N/A"
    airline := f.airline_name.getD "N/A"
    departure := toEndpointRecord f.departure
    arrival := toEndpointRecord f.arrival
    flight_status := f.flight_status.getD "N/A" }

/-- JSON string escaping of one character, as `json.dumps` performs it for
the characters that occur in practice (backslash, double quote, and the
common control characters; the `\uXXXX` escapes for other control or
non-ASCII characters are not modelled). -/
def escChar (c : Char) : String :=
  if c = '\\' then "\\\\"
  else if c = '\x22' then "\\\x22"
  else if c = '\n' then "\\n"
  else if c = '\t' then "\\t"
  else if c = '\r' then "\\r"
  else String.mk [c]

/-- JSON string escaping, character by character. -/
def escapeJson (s : String) : String := String.join (s.data.map escChar)

/-- A JSON string literal: opening quote, escaped body, closing quote. -/
def jstr (s : String) : String := "\x22" ++ escapeJson s ++ "\x22"

/-- Indentation prefix produced by `json.dumps(..., indent=2)` at nesting
level `n`: `2*n` spaces. -/
def ind (n : Nat) : String := String.mk (List.replicate (2 * n) ' ')

/-- Serialization of one `departure`/`arrival` dict by
`json.dumps(..., indent=2)`, rendered at nesting level `lvl`. -/
def dumpEndpoint (lvl : Nat) (e : EndpointRecord) : String :=
  "\x7b\n"
  ++ ind (lvl + 1) ++ jstr "airport" ++ ": " ++ jstr e.airport ++ ",\n"
  ++ ind (lvl + 1) ++ jstr "iata" ++ ": " ++ jstr e.iata ++ ",\n"
  ++ ind (lvl + 1) ++ jstr "scheduled" ++ ": " ++ jstr e.scheduled ++ ",\n"
  ++ ind (lvl + 1) ++ jstr "estimated" ++ ": " ++ jstr e.estimated ++ ",\n"
  ++ ind (lvl + 1) ++ jstr "status" ++ ": " ++ jstr e.status ++ "\n"
  ++ ind lvl ++ "\x7d"

/-- Serialization of one `info` dict by `json.dumps(..., indent=2)`,
rendered at nesting level `lvl`; key order is dict insertion order. -/
def dumpRecord (lvl : Nat) (r : FlightRecord) : String :=
  "\x7b\n"
  ++ ind (lvl + 1) ++ jstr "flight_number" ++ ": " ++ jstr r.flight_number ++ ",\n"
  ++ ind (lvl + 1) ++ jstr "airline" ++ ": " ++ jstr r.airline ++ ",\n"
  ++ ind (lvl + 1) ++ jstr "departure" ++ ": " ++ dumpEndpoint (lvl + 1) r.departure ++ ",\n"
  ++ ind (lvl + 1) ++ jstr "arrival" ++ ": " ++ dumpEndpoint (lvl + 1) r.arrival ++ ",\n"
  ++ ind (lvl + 1) ++ jstr "flight_status" ++ ": " ++ jstr r.flight_status ++ "\n"
  ++ ind lvl ++ "\x7d"

/-- Model of `json.dumps(flight_info, indent=2)` (line 280) for the list of
normalized records: a pretty-printed JSON array, elements at nesting
level 1 separated by commas. -/
def dumpsRecords : List FlightRecord → String
  | [] => "[]"
  | r :: rs =>
    "[\n" ++ ind 1 ++ dumpRecord 1 r
    ++ rs.foldl (fun acc x => acc ++ ",\n" ++ ind 1 ++ dumpRecord 1 x) ""
    ++ "\n]"

/-- One conditional insertion into the `params` dict (lines 229-238):
the pair is present exactly when the field is truthy, with `f` the
transformation applied to the value (`upper` for IATA codes, identity
otherwise). -/
def optParam (k : String) (v : Option String) (f : String → String) :
    List (String × String) :=
  match v with
  | none => []
  | some s => if s = "" then [] else [(k, f s)]

/-- The `params` dict passed to `requests.get` (lines 227-238), as the
ordered list of key/value pairs the source inserts: the credential first,
then one pair per truthy query field.  `flight_number` is sent under the
key `flight_iata` unchanged; the three IATA-code fields are uppercased;
`flight_date` is passed through as-is. -/
def buildParams (api_key : String)
    (flight_number dep_iata arr_iata flight_date airline_iata : Option String) :
    List (String × String) :=
  [("access_key", api_key)]
  ++ optParam "flight_iata" flight_number id
  ++ optParam "dep_iata" dep_iata upper
  ++ optParam "arr_iata" arr_iata upper
  ++ optParam "flight_date" flight_date id
  ++ optParam "airline_iata" airline_iata upper

/-- Error string returned when the credential is missing (line 224). -/
def apiKeyMissingMsg : String :=
  "Error: Aviationstack API key (CLIENTSECRET) not found in environment variables"

/-- Literal returned when the result list is empty (line 250). -/
def noFlightsMsg : String := "No flights found matching the search criteria."

/-- The body of the `try` block after the request is made (lines 241-285):
dispatch on the HTTP outcome.  Transport-level `RequestException`s (timeout,
connection error, `raise_for_status`) are caught at line 282; a JSON decode
failure falls to the generic handler at line 284; a parsed body is checked
for a provider error object, then for emptiness, and otherwise the first 5
entries are normalized and serialized. -/
def handleHttp : HttpOutcome → String
  | .timeout d => "Error fetching flight data: " ++ d
  | .connectionError d => "Error fetching flight data: " ++ d
  | .statusError d => "Error fetching flight data: " ++ d
  | .invalidJson d => "Unexpected error: " ++ d
  | .ok body =>
    match body.error with
    | some info => "API Error: " ++ info.getD "Unknown error"
    | none =>
      let flights := body.data
      if flights.isEmpty then noFlightsMsg
      else dumpsRecords ((flights.take 5).map toRecord)

/-- `search_flights` (lines 214-285).  `env` is `os.getenv("CLIENTSECRET")`;
`http` is the HTTP oracle.  The `if not api_key` guard returns the error
string for both an absent and an empty credential; otherwise the request is
issued with the built parameter list and its outcome handled.  The function
is total: no exception escapes this boundary. -/
def search_flights (env : Option String)
    (flight_number dep_iata arr_iata flight_date airline_iata : Option String)
    (http : List (String × String) → HttpOutcome) : String :=
  match env with
  | none => apiKeyMissingMsg
  | some api_key =>
    if api_key = "" then apiKeyMissingMsg
    else handleHttp
      (http (buildParams api_key flight_number dep_iata arr_iata flight_date airline_iata))

/-! Helper lemmas about the parameter construction. -/

theorem optParam_map_fst (k : String) (v : Option String) (f : String → String) :
    (optParam k v f).map Prod.fst = if truthyOpt v then [k] else [] := by
  cases v with
  | none => rfl
  | some s =>
    by_cases h : s = "" <;> simp [optParam, truthyOpt, h]

/-! Concrete inputs used by witnesses. -/

/-- A representative provider flight entry with some fields present and some
absent. -/
def sampleFlight : ApiFlight :=
  ⟨some "AA100", some "American Airlines",
   ⟨some "John F Kennedy International", some "JFK",
    some "2026-01-29T08:00:00+00:00", none, some "on time"⟩,
   ⟨none, some "LAX", none, none, none⟩,
   some "active"⟩

/-- A successful body with six flight entries (more than the cap). -/
def body6 : ApiBody := ⟨none, List.replicate 6 sampleFlight⟩

/-- HTTP oracle that answers every request with `body6`. -/
def httpOk6 : List (String × String) → HttpOutcome := fun _ => .ok body6

/-- HTTP oracle that answers with an empty result list. -/
def httpOkEmpty : List (String × String) → HttpOutcome := fun _ => .ok ⟨none, []⟩

/-- HTTP oracle that times out on every request. -/
def httpTimeout : List (String × String) → HttpOutcome :=
  fun _ => .timeout "HTTPSConnectionPool: Read timed out. (read timeout=10)"

/-! Claim theorems for the flight-lookup client. -/

/-- C5: for every FlightQuery, the GET request built by `search_flights`
carries the `access_key` credential plus exactly the non-empty query fields
as parameters, with `dep_iata`, `arr_iata` and `airline_iata` uppercased
and `flight_number` and `flight_date` passed through as-is; in particular,
given `dep_iata="jfk"` the upstream request carries `dep_iata=JFK`. -/
theorem request_params_exact (api_key : String)
    (fn dep arr date airline : Option String) :
    (buildParams api_key fn dep arr date airline).head? = some ("access_key", api_key)
    ∧ (buildParams api_key fn dep arr date airline).map Prod.fst
        = ["access_key"]
          ++ (if truthyOpt fn then ["flight_iata"] else [])
          ++ (if truthyOpt dep then ["dep_iata"] else [])
          ++ (if truthyOpt arr then ["arr_iata"] else [])
          ++ (if truthyOpt date then ["flight_date"] else [])
          ++ (if truthyOpt airline then ["airline_iata"] else [])
    ∧ (∀ s, fn = some s → s ≠ "" →
        ("flight_iata", s) ∈ buildParams api_key fn dep arr date airline)
    ∧ (∀ s, dep = some s → s ≠ "" →
        ("dep_iata", upper s) ∈ buildParams api_key fn dep arr date airline)
    ∧ (∀ s, arr = some s → s ≠ "" →
        ("arr_iata", upper s) ∈ buildParams api_key fn dep arr date airline)
    ∧ (∀ s, date = some s → s ≠ "" →
        ("flight_date", s) ∈ buildParams api_key fn dep arr date airline)
    ∧ (∀ s, airline = some s → s ≠ "" →
        ("airline_iata", upper s) ∈ buildParams api_key fn dep arr date airline)
    ∧ (api_key ≠ "" → ∀ http, search_flights (some api_key) fn dep arr date airline http
          = handleHttp (http (buildParams api_key fn dep arr date airline)))
    ∧ ("dep_iata", "JFK") ∈ buildParams api_key fn (some "jfk") arr date airline := by
  refine ⟨rfl, ?_, ?_, ?_, ?_, ?_, ?_, ?_, ?_⟩
  · simp [buildParams, optParam_map_fst]
  · intro s hs hne
    subst hs
    simp [buildParams, optParam, hne]
  · intro s hs hne
    subst hs
    simp [buildParams, optParam, hne]
  · intro s hs hne
    subst hs
    simp [buildParams, optParam, hne]
  · intro s hs hne
    subst hs
    simp [buildParams, optParam, hne]
  · intro s hs hne
    subst hs
    simp [buildParams, optParam, hne]
  · intro hk http
    simp [search_flights, hk]
  · have hj : optParam "dep_iata" (some "jfk") upper = [("dep_iata", "JFK")] := by decide
    simp [buildParams, hj]

/-- C5 witness: concrete instance with `dep_iata="jfk"` and a non-empty
credential. -/
theorem request_params_exact_witness :
    ("k1" : String) ≠ ""
    ∧ ("dep_iata", "JFK") ∈ buildParams "k1" none (some "jfk") none none none :=
  ⟨by decide, (request_params_exact "k1" none none none none none).2.2.2.2.2.2.2.2⟩

/-- C6: for every transport-level failure of the flight lookup (timeout,
connection error, or non-success HTTP status), `search_flights` returns an
error string embedding the failure description; the function is total, so
no exception passes its boundary. -/
theorem search_flights_transport_error (api_key : String)
    (fn dep arr date airline : Option String)
    (http : List (String × String) → HttpOutcome) (d : String)
    (hk : api_key ≠ "")
    (h : http (buildParams api_key fn dep arr date airline) = .timeout d
       ∨ http (buildParams api_key fn dep arr date airline) = .connectionError d
       ∨ http (buildParams api_key fn dep arr date airline) = .statusError d) :
    search_flights (some api_key) fn dep arr date airline http
      = "Error fetching flight data: " ++ d := by
  rcases h with h | h | h <;> simp [search_flights, hk, h, handleHttp]

/-- C6 witness: a timeout on a concrete query yields the error string. -/
theorem search_flights_transport_error_witness :
    search_flights (some "k1") (some "AA100") none none none none httpTimeout
      = "Error fetching flight data: "
        ++ "HTTPSConnectionPool: Read timed out. (read timeout=10)" :=
  search_flights_transport_error "k1" (some "AA100") none none none none
    httpTimeout "HTTPSConnectionPool: Read timed out. (read timeout=10)"
    (by decide) (Or.inl rfl)

/-- C7: for every successful provider response whose result list is
non-empty and carries no error object, `search_flights` returns the
pretty-printed JSON array of at most the first 5 entries mapped to
`FlightRecord`s, with every field the provider omits defaulted to the
sentinel value N/A. -/
theorem search_flights_success_truncates (api_key : String)
    (fn dep arr date airline : Option String)
    (http : List (String × String) → HttpOutcome) (body : ApiBody)
    (hk : api_key ≠ "")
    (hh : http (buildParams api_key fn dep arr date airline) = .ok body)
    (he : body.error = none)
    (hd : body.data ≠ []) :
    search_flights (some api_key) fn dep arr date airline http
      = dumpsRecords ((body.data.take 5).map toRecord)
    ∧ ((body.data.take 5).map toRecord).length ≤ 5
    ∧ (∀ f : ApiFlight,
        (f.flight_iata = none → (toRecord f).flight_number = "N/A")
        ∧ (f.airline_name = none → (toRecord f).airline = "N/A")
        ∧ (f.flight_status = none → (toRecord f).flight_status = "N/A")
        ∧ (toRecord f).departure = toEndpointRecord f.departure
        ∧ (toRecord f).arrival = toEndpointRecord f.arrival)
    ∧ (∀ e : ApiEndpoint,
        (e.airport = none → (toEndpointRecord e).airport = "N/A")
        ∧ (e.iata = none → (toEndpointRecord e).iata = "N/A")
        ∧ (e.scheduled = none → (toEndpointRecord e).scheduled = "N/A")
        ∧ (e.estimated = none → (toEndpointRecord e).estimated = "N/A")
        ∧ (e.status = none → (toEndpointRecord e).status = "N/A")) := by
  refine ⟨?_, ?_, ?_, ?_⟩
  · cases hb : body.data with
    | nil => exact absurd hb hd
    | cons a l => simp [search_flights, hk, hh, he, handleHttp, hb]
  · simp [List.length_take]
  · intro f
    refine ⟨?_, ?_, ?_, rfl, rfl⟩ <;> intro h <;> simp [toRecord, h]
  · intro e
    refine ⟨?_, ?_, ?_, ?_, ?_⟩ <;> intro h <;> simp [toEndpointRecord, h]

/-- C7 witness: a concrete response with six entries is truncated to the
first five and serialized. -/
theorem search_flights_success_truncates_witness :
    body6.data ≠ []
    ∧ search_flights (some "k1") none none none none none httpOk6
        = dumpsRecords ((body6.data.take 5).map toRecord)
    ∧ ((body6.data.take 5).map toRecord).length ≤ 5 :=
  ⟨by decide,
   (search_flights_success_truncates "k1" none none none none none httpOk6
      body6 (by decide) rfl rfl (by decide)).1,
   (search_flights_success_truncates "k1" none none none none none httpOk6
      body6 (by decide) rfl rfl (by decide)).2.1⟩

/-- C8: for every successful provider response with zero flight entries and
no error object, `search_flights` returns exactly the literal string
"No flights found matching the search criteria.". -/
theorem search_flights_empty_result (api_key : String)
    (fn dep arr date airline : Option String)
    (http : List (String × String) → HttpOutcome) (body : ApiBody)
    (hk : api_key ≠ "")
    (hh : http (buildParams api_key fn dep arr date airline) = .ok body)
    (he : body.error = none)
    (hd : body.data = []) :
    search_flights (some api_key) fn dep arr date airline http = noFlightsMsg
    ∧ noFlightsMsg = "No flights found matching the search criteria." := by
  refine ⟨?_, rfl⟩
  simp [search_flights, hk, hh, he, handleHttp, hd]

/-- C8 witness: a concrete empty response yields the literal. -/
theorem search_flights_empty_result_witness :
    search_flights (some "k1") none (some "jfk") none none none httpOkEmpty
      = "No flights found matching the search criteria." :=
  (search_flights_empty_result "k1" none (some "jfk") none none none
      httpOkEmpty ⟨none, []⟩ (by decide) rfl rfl rfl).1.trans
    (search_flights_empty_result "k1" none (some "jfk") none none none
      httpOkEmpty ⟨none, []⟩ (by decide) rfl rfl rfl).2

/-- C9: whenever the flight-provider credential (CLIENTSECRET) is absent
from the environment, `search_flights` returns a string containing
"CLIENTSECRET", and its result does not depend on the HTTP oracle at all
(no network call is consulted), for every input query. -/
theorem search_flights_missing_key (fn dep arr date airline : Option String)
    (http http' : List (String × String) → HttpOutcome) :
    search_flights none fn dep arr date airline http = apiKeyMissingMsg
    ∧ search_flights none fn dep arr date airline http
        = search_flights none fn dep arr date airline http'
    ∧ (∃ pre post : String,
        search_flights none fn dep arr date airline http
          = pre ++ "CLIENTSECRET" ++ post) :=
  ⟨rfl, rfl,
   ⟨"Error: Aviationstack API key (", ") not found in environment variables", rfl⟩⟩

/-! Orchestration loop (lines 288-361). -/

/-- One tool call of an assistant response, as delivered by the provider:
opaque id, call type, function name, and the raw argument text
(`tool_call.function.arguments`). -/
structure ToolCall where
  id : String
  type : String
  name : String
  arguments : String
  deriving DecidableEq

/-- One assistant response (`response.choices[0].message`): optional text
content and the list of requested tool calls.  The provider's
`tool_calls = None` and `tool_calls = []` behave identically under the
source's truthiness checks, so both are the empty list. -/
structure AssistantMsg where
  content : Option String
  tool_calls : List ToolCall
  deriving DecidableEq

/-- The tool-call dict copied verbatim into the assistant message dict
(lines 336-346): id, type, and the function's name and raw argument
text. -/
structure ToolCallDict where
  id : String
  type : String
  name : String
  arguments : String
  deriving DecidableEq

/-- A message dict of the working conversation.  `tool_calls` is present
only on assistant messages that requested tools; `tool_call_id` only on
tool messages. -/
structure Message where
  role : String
  content : String
  tool_calls : Option (List ToolCallDict)
  tool_call_id : Option String
  deriving DecidableEq

/-- The JSON object produced by `json.loads(tool_call.function.arguments)`,
as the association list of its string-valued fields (the registered tool
schema declares five optional string fields); `.get(key)` is `lookup`. -/
abbrev Args := List (String × String)

/-- Body of the `for tool_call in message.tool_calls` loop (lines 291-306).
`loads` is the `json.loads` oracle: `.error e` means the call raises
`json.JSONDecodeError` with text `e`, which this function does not catch,
so the whole call aborts with that error and the responses accumulated so
far are discarded.  A call whose name is not `search_flights` is skipped
with no tool message. -/
def handleCalls (loads : String → Except String Args) (env : Option String)
    (http : List (String × String) → HttpOutcome) :
    List ToolCall → Except String (List Message)
  | [] => .ok []
  | tc :: rest =>
    if tc.name == "search_flights" then
      match loads tc.arguments with
      | .error e => .error e
      | .ok args =>
        let flight_info := search_flights env (args.lookup "flight_number")
          (args.lookup "dep_iata") (args.lookup "arr_iata")
          (args.lookup "flight_date") (args.lookup "airline_iata") http
        match handleCalls loads env http rest with
        | .error e => .error e
        | .ok ms => .ok (⟨"tool", flight_info, none, some tc.id⟩ :: ms)
    else handleCalls loads env http rest

/-- `handle_tool_calls` (lines 288-306): returns the list of tool message
dicts, one per executed call, in the order the calls appeared; an uncaught
`json.JSONDecodeError` is an `Except.error`. -/
def handle_tool_calls (loads : String → Except String Args) (env : Option String)
    (http : List (String × String) → HttpOutcome) (m : AssistantMsg) :
    Except String (List Message) :=
  handleCalls loads env http m.tool_calls

/-- Verbatim copy of one tool call into the assistant dict (lines 337-344). -/
def toolCallDict (tc : ToolCall) : ToolCallDict :=
  ⟨tc.id, tc.type, tc.name, tc.arguments⟩

/-- The `assistant_dict` built at lines 331-346: role, `content or ""`, and
the tool calls copied verbatim when (and only when) the response has
any. -/
def assistantDict (m : AssistantMsg) : Message :=
  { role := "assistant"
    content := m.content.getD ""
    tool_calls :=
      if m.tool_calls.isEmpty then none else some (m.tool_calls.map toolCallDict)
    tool_call_id := none }

/-- Heap of Python list objects: a bump allocator over cells addressed by
`Nat` references.  `list(messages)` allocates a fresh cell holding a copy
of the contents; `append`/`extend` mutate one cell in place. -/
structure Store where
  size : Nat
  cells : Nat → List Message

/-- Read the list object at reference `r`. -/
def Store.getCell (st : Store) (r : Nat) : List Message := st.cells r

/-- Overwrite the list object at reference `r`. -/
def Store.setCell (st : Store) (r : Nat) (v : List Message) : Store :=
  ⟨st.size, fun j => if j = r then v else st.cells j⟩

/-- Allocate a fresh list object holding `v`; returns the new store and the
fresh reference. -/
def Store.alloc (st : Store) (v : List Message) : Store × Nat :=
  (⟨st.size + 1, fun j => if j = st.size then v else st.cells j⟩, st.size)

/-- `lst.append(m)` on the list object at `r`. -/
def Store.appendCell (st : Store) (r : Nat) (m : Message) : Store :=
  st.setCell r (st.getCell r ++ [m])

/-- `lst.extend(ms)` on the list object at `r`. -/
def Store.extendCell (st : Store) (r : Nat) (ms : List Message) : Store :=
  st.setCell r (st.getCell r ++ ms)

/-- Outcome of one call to `get_openai_response`: the returned text (or the
uncaught exception), the final heap, and the number of provider
round-trips performed. -/
structure RunResult where
  result : Except String String
  store : Store
  ncalls : Nat

/-- The fixed fallback returned when the iteration budget is exhausted
without a usable text (line 360). -/
def fallbackMsg : String :=
  "I apologize, but I\x27m having trouble processing your request. Please try again."

/-- The value returned after the `while` loop (lines 357-361):
`assistant_message.content if assistant_message and assistant_message.content
else fallbackMsg`, with Python string truthiness. -/
def exhaustedAnswer : Option AssistantMsg → String
  | none => fallbackMsg
  | some m =>
    match m.content with
    | none => fallbackMsg
    | some c => if c = "" then fallbackMsg else c

/-- The `while iteration < max_iterations` loop (lines 321-361), with
`fuel = max_iterations - iteration` so that `fuel = 0` is loop exit.
`iter` is the current value of `iteration`, which also indexes the
provider oracle `p` (the response to the next round-trip); `last` is the
current `assistant_message` binding; `cur` is the reference held by
`current_messages`.  Each executed pass appends the assistant dict, then
either returns the content (no tool calls), propagates an uncaught parse
exception, or extends with the tool messages and repeats. -/
def loopSt (p : Nat → AssistantMsg) (loads : String → Except String Args)
    (env : Option String) (http : List (String × String) → HttpOutcome) :
    Nat → Nat → Option AssistantMsg → Store → Nat → RunResult
  | _, 0, last, st, _ => ⟨.ok (exhaustedAnswer last), st, 0⟩
  | iter, fuel + 1, _, st, cur =>
    let resp := p iter
    let st1 := st.appendCell cur (assistantDict resp)
    if resp.tool_calls.isEmpty then
      ⟨.ok (resp.content.getD ""), st1, 1⟩
    else
      match handle_tool_calls loads env http resp with
      | .error e => ⟨.error e, st1, 1⟩
      | .ok trs =>
        let r := loopSt p loads env http (iter + 1) fuel (some resp)
          (st1.extendCell cur trs) cur
        ⟨r.result, r.store, r.ncalls + 1⟩

/-- `get_openai_response` (lines 309-361): copy the caller's message list
into a fresh cell (`current_messages = list(messages)`, line 319) and run
the loop with `max_iterations = 5`. -/
def get_openai_response (p : Nat → AssistantMsg) (loads : String → Except String Args)
    (env : Option String) (http : List (String × String) → HttpOutcome)
    (st : Store) (messagesRef : Nat) : RunResult :=
  let copied := st.getCell messagesRef
  let stAlloc := st.alloc copied
  loopSt p loads env http 0 5 none stAlloc.1 stAlloc.2

/-- The messages the loop appends to the working conversation over `n`
executed passes starting at round `iter`, assuming every pass's tool
handling succeeds with messages `tmsF`: each round contributes its
assistant dict immediately followed by its tool messages (none when the
response requested no tools). -/
def expectedRounds (p : Nat → AssistantMsg) (tmsF : Nat → List Message) :
    Nat → Nat → List Message
  | _, 0 => []
  | iter, n + 1 =>
    (assistantDict (p iter)
      :: (if (p iter).tool_calls.isEmpty then [] else tmsF iter))
    ++ expectedRounds p tmsF (iter + 1) n

/-! Store and loop lemmas. -/

theorem Store.cells_setCell (st : Store) (r : Nat) (v : List Message) (j : Nat) :
    (st.setCell r v).cells j = if j = r then v else st.cells j := rfl

theorem Store.getCell_appendCell_self (st : Store) (r : Nat) (m : Message) :
    (st.appendCell r m).getCell r = st.getCell r ++ [m] := by
  simp [Store.appendCell, Store.setCell, Store.getCell]

theorem Store.getCell_extendCell_self (st : Store) (r : Nat) (ms : List Message) :
    (st.extendCell r ms).getCell r = st.getCell r ++ ms := by
  simp [Store.extendCell, Store.setCell, Store.getCell]

/-- The loop mutates only the `current_messages` cell: every other cell of
the heap is untouched. -/
theorem loopSt_frame (p : Nat → AssistantMsg) (loads : String → Except String Args)
    (env : Option String) (http : List (String × String) → HttpOutcome) :
    ∀ (fuel iter : Nat) (last : Option AssistantMsg) (st : Store) (cur j : Nat),
      j ≠ cur →
      (loopSt p loads env http iter fuel last st cur).store.cells j = st.cells j := by
  intro fuel
  induction fuel with
  | zero => intro iter last st cur j hj; rfl
  | succ n ih =>
    intro iter last st cur j hj
    simp only [loopSt]
    cases he : (p iter).tool_calls.isEmpty with
    | true => simp [he, Store.appendCell, Store.cells_setCell, hj]
    | false =>
      cases hh : handle_tool_calls loads env http (p iter) with
      | error e => simp [Store.appendCell, Store.cells_setCell, hj]
      | ok trs =>
        exact (ih (iter + 1) (some (p iter))
          ((st.appendCell cur (assistantDict (p iter))).extendCell cur trs) cur j hj).trans
          (by simp [Store.extendCell, Store.appendCell, Store.cells_setCell, hj])

/-- The loop makes at most `fuel` provider round-trips. -/
theorem loopSt_ncalls_le (p : Nat → AssistantMsg) (loads : String → Except String Args)
    (env : Option String) (http : List (String × String) → HttpOutcome) :
    ∀ (fuel iter : Nat) (last : Option AssistantMsg) (st : Store) (cur : Nat),
      (loopSt p loads env http iter fuel last st cur).ncalls ≤ fuel := by
  intro fuel
  induction fuel with
  | zero => intro iter last st cur; exact Nat.le_refl 0
  | succ n ih =>
    intro iter last st cur
    simp only [loopSt]
    cases he : (p iter).tool_calls.isEmpty with
    | true => exact Nat.succ_le_succ (Nat.zero_le n)
    | false =>
      cases hh : handle_tool_calls loads env http (p iter) with
      | error e => exact Nat.succ_le_succ (Nat.zero_le n)
      | ok trs =>
        exact Nat.succ_le_succ (ih (iter + 1) (some (p iter)) _ cur)

/-- When every provider response requests tool calls and every batch of
tool calls is handled without an exception, the loop consumes its entire
budget and returns the post-loop value computed from the last response. -/
theorem loopSt_all_tools (p : Nat → AssistantMsg) (loads : String → Except String Args)
    (env : Option String) (http : List (String × String) → HttpOutcome)
    (tmsF : Nat → List Message)
    (hT : ∀ i, (p i).tool_calls ≠ [])
    (hH : ∀ i, handle_tool_calls loads env http (p i) = .ok (tmsF i)) :
    ∀ (fuel iter : Nat) (last : Option AssistantMsg) (st : Store) (cur : Nat),
      (loopSt p loads env http iter fuel last st cur).ncalls = fuel
      ∧ (loopSt p loads env http iter fuel last st cur).result
          = .ok (exhaustedAnswer
              (match fuel with
               | 0 => last
               | n + 1 => some (p (iter + n)))) := by
  intro fuel
  induction fuel with
  | zero => intro iter last st cur; exact ⟨rfl, rfl⟩
  | succ n ih =>
    intro iter last st cur
    have he : (p iter).tool_calls.isEmpty = false := by
      cases hc : (p iter).tool_calls with
      | nil => exact absurd hc (hT iter)
      | cons a l => rfl
    simp only [loopSt, he, hH iter]
    obtain ⟨ih1, ih2⟩ := ih (iter + 1) (some (p iter))
      ((st.appendCell cur (assistantDict (p iter))).extendCell cur (tmsF iter)) cur
    refine ⟨by simpa using ih1, ?_⟩
    rw [ih2]
    cases n with
    | zero => rfl
    | succ m =>
      have harith : iter + 1 + m = iter + (m + 1) := by omega
      simp [harith]

/-- Unfolding of `expectedRounds` for a single round. -/
theorem expectedRounds_one (p : Nat → AssistantMsg) (tmsF : Nat → List Message)
    (iter : Nat) :
    expectedRounds p tmsF iter 1
      = assistantDict (p iter)
        :: (if (p iter).tool_calls.isEmpty then [] else tmsF iter) := by
  show expectedRounds p tmsF iter (0 + 1) = _
  simp [expectedRounds]

/-- Transcript shape: assuming every batch of tool calls is handled without
an exception, the working conversation after the loop is the initial
conversation followed, round by round, by each round's assistant dict
immediately followed by that round's tool messages. -/
theorem loopSt_transcript (p : Nat → AssistantMsg) (loads : String → Except String Args)
    (env : Option String) (http : List (String × String) → HttpOutcome)
    (tmsF : Nat → List Message)
    (hH : ∀ i, handle_tool_calls loads env http (p i) = .ok (tmsF i)) :
    ∀ (fuel iter : Nat) (last : Option AssistantMsg) (st : Store) (cur : Nat),
      (loopSt p loads env http iter fuel last st cur).store.getCell cur
        = st.getCell cur
          ++ expectedRounds p tmsF iter
              (loopSt p loads env http iter fuel last st cur).ncalls := by
  intro fuel
  induction fuel with
  | zero => intro iter last st cur; simp [loopSt, expectedRounds]
  | succ n ih =>
    intro iter last st cur
    cases he : (p iter).tool_calls.isEmpty with
    | true =>
      simp only [loopSt, he]
      simp [expectedRounds_one, he, Store.getCell_appendCell_self]
    | false =>
      simp only [loopSt, he, hH iter]
      simp [ih, expectedRounds, he, Store.getCell_extendCell_self,
        Store.getCell_appendCell_self, List.append_assoc]

/-- Order, id pairing and role of the tool messages produced by the
tool-call loop, for every batch that completes without a parse
exception: one message per call named `search_flights`, in call order. -/
theorem handleCalls_pairing (loads : String → Except String Args)
    (env : Option String) (http : List (String × String) → HttpOutcome) :
    ∀ (l : List ToolCall) (tms : List Message),
      handleCalls loads env http l = .ok tms →
      tms.map (fun x => x.tool_call_id)
        = (l.filter (fun tc => tc.name == "search_flights")).map (fun tc => some tc.id)
      ∧ (∀ x ∈ tms, x.role = "tool") := by
  intro l
  induction l with
  | nil =>
    intro tms h
    simp only [handleCalls] at h
    injection h with h1
    subst h1
    simp
  | cons tc rest ih =>
    intro tms h
    simp only [handleCalls] at h
    by_cases hn : (tc.name == "search_flights") = true
    · rw [if_pos hn] at h
      cases hl : loads tc.arguments with
      | error e =>
        rw [hl] at h
        simp at h
      | ok args =>
        rw [hl] at h
        cases hr : handleCalls loads env http rest with
        | error e =>
          rw [hr] at h
          simp at h
        | ok ms =>
          rw [hr] at h
          injection h with h1
          subst h1
          obtain ⟨ih1, ih2⟩ := ih ms hr
          constructor
          · simp [List.filter_cons, hn, ih1]
          · intro x hx
            rcases List.mem_cons.mp hx with rfl | hx
            · rfl
            · exact ih2 x hx
    · rw [if_neg hn] at h
      obtain ⟨ih1, ih2⟩ := ih tms h
      refine ⟨?_, ih2⟩
      simp [List.filter_cons, hn, ih1]

/-! Concrete inputs used by the orchestration witnesses and
counterexamples. -/

/-- A caller conversation of one user message. -/
def userMsg : Message := ⟨"user", "Status of flight AA100", none, none⟩

/-- Initial heap: one allocated list (reference 0) holding the caller's
conversation. -/
def store0 : Store := ⟨1, fun _ => [userMsg]⟩

/-- `json.loads` oracle for runs whose argument texts are all the empty
object: every queried text parses to the empty object. -/
def loadsStub : String → Except String Args := fun _ => .ok []

/-- Provider that immediately answers in plain text with no tool calls. -/
def pPlain : Nat → AssistantMsg := fun _ => ⟨some "Hello! How can I help you?", []⟩

/-- A tool call whose name is not `search_flights`. -/
def tcFoo : ToolCall := ⟨"call_1", "function", "book_hotel", "\x7b\x7d"⟩

/-- An assistant response with one unrecognized tool call and no content. -/
def respFoo : AssistantMsg := ⟨none, [tcFoo]⟩

/-- Provider that requests the unrecognized tool call on every round. -/
def pFoo : Nat → AssistantMsg := fun _ => respFoo

/-- Two `search_flights` calls with empty-object arguments. -/
def tcS1 : ToolCall := ⟨"call_1", "function", "search_flights", "\x7b\x7d"⟩

/-- Second `search_flights` call. -/
def tcS2 : ToolCall := ⟨"call_2", "function", "search_flights", "\x7b\x7d"⟩

/-- An assistant response with two `search_flights` calls. -/
def respTwo : AssistantMsg := ⟨some "", [tcS1, tcS2]⟩

/-- Tool message answering `tcS1` (no credential configured, so the tool
output is the credential error string). -/
def toolMsg1 : Message := ⟨"tool", apiKeyMissingMsg, none, some "call_1"⟩

/-- Tool message answering `tcS2`. -/
def toolMsg2 : Message := ⟨"tool", apiKeyMissingMsg, none, some "call_2"⟩

/-- The text of the `json.JSONDecodeError` raised by `json.loads` on the
argument text "flights please". -/
def jsonErrMsg : String := "Expecting value: line 1 column 1 (char 0)"

/-- `json.loads` oracle for runs whose argument texts are all malformed:
every queried text fails to parse. -/
def loadsFail : String → Except String Args := fun _ => .error jsonErrMsg

/-- A `search_flights` call whose arguments text is not JSON. -/
def tcBad : ToolCall := ⟨"call_9", "function", "search_flights", "flights please"⟩

/-- An assistant response carrying the malformed tool call. -/
def respBad : AssistantMsg := ⟨some "", [tcBad]⟩

/-- Provider that requests the malformed tool call on every round. -/
def pBad : Nat → AssistantMsg := fun _ => respBad

/-! Claim theorems for the orchestration loop. -/

/-- C1 counterexample: a tool call whose arguments text is not parseable
as JSON.  `handle_tool_calls` does not catch the parse failure, so the
error escapes it, the tool produces no tool message, and the loop run
aborts with the error after one round — refuting that the tool is still
executed and that the loop is never aborted by the parse failure. -/
theorem malformed_args_abort_cex :
    handle_tool_calls loadsFail none httpOkEmpty respBad = .error jsonErrMsg
    ∧ (get_openai_response pBad loadsFail none httpOkEmpty store0 0).result
        = .error jsonErrMsg
    ∧ (get_openai_response pBad loadsFail none httpOkEmpty store0 0).ncalls = 1 :=
  ⟨rfl, rfl, rfl⟩

/-- C1 amended: if an assistant response's first tool call is named
`search_flights` and its arguments text fails to parse as JSON, the
`json.loads` exception escapes `handle_tool_calls` (the tool is not
executed and no tool message is produced), and the orchestration loop
aborts with that exception after a single provider round-trip. -/
theorem malformed_args_raise (loads : String → Except String Args)
    (env : Option String) (http : List (String × String) → HttpOutcome)
    (m : AssistantMsg) (tc : ToolCall) (rest : List ToolCall) (e : String)
    (hm : m.tool_calls = tc :: rest)
    (hn : tc.name = "search_flights")
    (hl : loads tc.arguments = .error e) :
    handle_tool_calls loads env http m = .error e
    ∧ (∀ (p : Nat → AssistantMsg) (st : Store) (r : Nat), p 0 = m →
        (get_openai_response p loads env http st r).result = .error e
        ∧ (get_openai_response p loads env http st r).ncalls = 1) := by
  have h1 : handle_tool_calls loads env http m = .error e := by
    simp [handle_tool_calls, hm, handleCalls, hn, hl]
  refine ⟨h1, ?_⟩
  intro p st r hp
  have he : m.tool_calls.isEmpty = false := by rw [hm]; rfl
  constructor
  · show (loopSt p loads env http 0 (4 + 1) none (st.alloc (st.getCell r)).1
        (st.alloc (st.getCell r)).2).result = .error e
    simp [loopSt, hp, he, h1]
  · show (loopSt p loads env http 0 (4 + 1) none (st.alloc (st.getCell r)).1
        (st.alloc (st.getCell r)).2).ncalls = 1
    simp [loopSt, hp, he, h1]

/-- C1 witness: the amended theorem applied at the malformed concrete
call. -/
theorem malformed_args_raise_witness :
    respBad.tool_calls = tcBad :: []
    ∧ tcBad.name = "search_flights"
    ∧ loadsFail tcBad.arguments = .error jsonErrMsg
    ∧ handle_tool_calls loadsFail none httpOkEmpty respBad = .error jsonErrMsg :=
  ⟨rfl, rfl, rfl,
   (malformed_args_raise loadsFail none httpOkEmpty respBad tcBad [] jsonErrMsg
      rfl rfl rfl).1⟩

/-- C2 counterexample: an assistant response with one tool call whose name
is not `search_flights`.  Zero tool messages are produced for it, and a
full run driven by such responses appends no tool message at all — with
one tool call per round, five assistant dicts and the original user
message make six messages and none has role "tool" — refuting "exactly N
tool messages". -/
theorem tool_messages_pairing_cex :
    respFoo.tool_calls.length = 1
    ∧ handle_tool_calls loadsStub none httpOkEmpty respFoo = .ok []
    ∧ ((get_openai_response pFoo loadsStub none httpOkEmpty store0 0).store.getCell 1).filter
        (fun m => m.role == "tool") = []
    ∧ ((get_openai_response pFoo loadsStub none httpOkEmpty store0 0).store.getCell 1).length
        = 6 :=
  ⟨rfl, rfl, rfl, rfl⟩

/-- C2 amended: for every assistant response whose tool-call batch is
handled without a parse exception, exactly one tool message is appended
per tool call named `search_flights` — `tool_call_id` equal to that call's
id, in the calls' original order (calls with unrecognized names are
silently skipped and get no tool message) — and the working conversation
grows round by round as each assistant message immediately followed by its
batch of tool messages, before the next provider call. -/
theorem tool_messages_pairing (loads : String → Except String Args)
    (env : Option String) (http : List (String × String) → HttpOutcome) :
    (∀ (m : AssistantMsg) (tms : List Message),
        handle_tool_calls loads env http m = .ok tms →
        tms.map (fun x => x.tool_call_id)
          = (m.tool_calls.filter (fun tc => tc.name == "search_flights")).map
              (fun tc => some tc.id)
        ∧ tms.length
            = (m.tool_calls.filter (fun tc => tc.name == "search_flights")).length
        ∧ (∀ x ∈ tms, x.role = "tool"))
    ∧ (∀ (p : Nat → AssistantMsg) (st : Store) (r : Nat) (tmsF : Nat → List Message),
        (∀ i, handle_tool_calls loads env http (p i) = .ok (tmsF i)) →
        (get_openai_response p loads env http st r).store.getCell st.size
          = st.getCell r
            ++ expectedRounds p tmsF 0
                (get_openai_response p loads env http st r).ncalls) := by
  constructor
  · intro m tms h
    obtain ⟨h1, h2⟩ := handleCalls_pairing loads env http m.tool_calls tms h
    refine ⟨h1, ?_, h2⟩
    have h3 := congrArg List.length h1
    simpa using h3
  · intro p st r tmsF hH
    have hmain := loopSt_transcript p loads env http tmsF hH 5 0 none
      (st.alloc (st.getCell r)).1 (st.alloc (st.getCell r)).2
    have hinit : ((st.alloc (st.getCell r)).1).getCell ((st.alloc (st.getCell r)).2)
        = st.getCell r := by
      simp [Store.alloc, Store.getCell]
    rw [hinit] at hmain
    exact hmain

/-- C2 witness: a response with two `search_flights` calls yields exactly
two tool messages with matching ids in order. -/
theorem tool_messages_pairing_witness :
    handle_tool_calls loadsStub none httpOkEmpty respTwo = .ok [toolMsg1, toolMsg2]
    ∧ [toolMsg1, toolMsg2].map (fun x => x.tool_call_id)
        = (respTwo.tool_calls.filter (fun tc => tc.name == "search_flights")).map
            (fun tc => some tc.id) :=
  ⟨rfl,
   ((tool_messages_pairing loadsStub none httpOkEmpty).1 respTwo
      [toolMsg1, toolMsg2] rfl).1⟩

/-- C3 counterexample: a provider that requests a tool call on every round.
The run performs exactly 5 round-trips and, with no usable content, returns
the code's fallback string, which is not the string "unable to process the
request, try again" named by the claim. -/
theorem loop_budget_cex :
    (∀ i, (pFoo i).tool_calls ≠ [])
    ∧ (get_openai_response pFoo loadsStub none httpOkEmpty store0 0).ncalls = 5
    ∧ (get_openai_response pFoo loadsStub none httpOkEmpty store0 0).result
        = .ok "I apologize, but I\x27m having trouble processing your request. Please try again."
    ∧ "I apologize, but I\x27m having trouble processing your request. Please try again."
        ≠ "unable to process the request, try again" :=
  ⟨fun _ => List.cons_ne_nil _ _, rfl, rfl, by decide⟩

/-- C3 amended: for every input conversation and every sequence of
provider responses, the orchestration loop performs at most 5 provider
round-trips; when every response requests tool calls and every batch is
handled without a parse exception, the loop returns after exactly 5
round-trips, yielding the last assistant response's text content if
non-empty and otherwise the fixed fallback message "I apologize, but I'm
having trouble processing your request. Please try again.". -/
theorem loop_budget (p : Nat → AssistantMsg) (loads : String → Except String Args)
    (env : Option String) (http : List (String × String) → HttpOutcome)
    (st : Store) (r : Nat) :
    (get_openai_response p loads env http st r).ncalls ≤ 5
    ∧ (∀ tmsF : Nat → List Message,
        (∀ i, (p i).tool_calls ≠ []) →
        (∀ i, handle_tool_calls loads env http (p i) = .ok (tmsF i)) →
        (get_openai_response p loads env http st r).ncalls = 5
        ∧ (∀ c, (p 4).content = some c → c ≠ "" →
            (get_openai_response p loads env http st r).result = .ok c)
        ∧ ((p 4).content = none ∨ (p 4).content = some "" →
            (get_openai_response p loads env http st r).result = .ok fallbackMsg)) := by
  constructor
  · exact loopSt_ncalls_le p loads env http 5 0 none
      (st.alloc (st.getCell r)).1 (st.alloc (st.getCell r)).2
  · intro tmsF hT hH
    have hall := loopSt_all_tools p loads env http tmsF hT hH 5 0 none
      (st.alloc (st.getCell r)).1 (st.alloc (st.getCell r)).2
    have h1 : (get_openai_response p loads env http st r).ncalls = 5 := hall.1
    have h2 : (get_openai_response p loads env http st r).result
        = .ok (exhaustedAnswer (some (p 4))) := hall.2
    refine ⟨h1, ?_, ?_⟩
    · intro c hc hcne
      rw [h2]
      simp [exhaustedAnswer, hc, hcne]
    · intro hc
      rw [h2]
      rcases hc with hc | hc <;> simp [exhaustedAnswer, hc]

/-- C3 witness: the always-tool-calling provider consumes exactly 5 rounds
and falls back to the fixed message. -/
theorem loop_budget_witness :
    (∀ i, (pFoo i).tool_calls ≠ [])
    ∧ (get_openai_response pFoo loadsStub none httpOkEmpty store0 0).ncalls = 5
    ∧ (get_openai_response pFoo loadsStub none httpOkEmpty store0 0).result
        = .ok fallbackMsg := by
  have h := (loop_budget pFoo loadsStub none httpOkEmpty store0 0).2
    (fun _ => []) (fun _ => List.cons_ne_nil _ _) (fun _ => rfl)
  exact ⟨fun _ => List.cons_ne_nil _ _, h.1, h.2.2 (Or.inl rfl)⟩

/-- C4: for every conversation where the provider's first response
contains no tool calls, `get_openai_response` returns that response's text
content unchanged (the empty string if content is absent) and performs
exactly one provider call. -/
theorem first_response_no_tools (p : Nat → AssistantMsg)
    (loads : String → Except String Args) (env : Option String)
    (http : List (String × String) → HttpOutcome) (st : Store) (r : Nat)
    (h : (p 0).tool_calls = []) :
    (get_openai_response p loads env http st r).result = .ok ((p 0).content.getD "")
    ∧ (get_openai_response p loads env http st r).ncalls = 1
    ∧ ((p 0).content = none →
        (get_openai_response p loads env http st r).result = .ok "") := by
  have he : (p 0).tool_calls.isEmpty = true := by rw [h]; rfl
  refine ⟨?_, ?_, ?_⟩
  · show (loopSt p loads env http 0 (4 + 1) none (st.alloc (st.getCell r)).1
        (st.alloc (st.getCell r)).2).result = .ok ((p 0).content.getD "")
    simp [loopSt, he]
  · show (loopSt p loads env http 0 (4 + 1) none (st.alloc (st.getCell r)).1
        (st.alloc (st.getCell r)).2).ncalls = 1
    simp [loopSt, he]
  · intro hc
    show (loopSt p loads env http 0 (4 + 1) none (st.alloc (st.getCell r)).1
        (st.alloc (st.getCell r)).2).result = .ok ""
    simp [loopSt, he, hc]

/-- C4 witness: a plain-text first response is returned verbatim after one
round-trip. -/
theorem first_response_no_tools_witness :
    (pPlain 0).tool_calls = []
    ∧ (get_openai_response pPlain loadsStub none httpOkEmpty store0 0).result
        = .ok "Hello! How can I help you?"
    ∧ (get_openai_response pPlain loadsStub none httpOkEmpty store0 0).ncalls = 1 :=
  ⟨rfl,
   (first_response_no_tools pPlain loadsStub none httpOkEmpty store0 0 rfl).1,
   (first_response_no_tools pPlain loadsStub none httpOkEmpty store0 0 rfl).2.1⟩

/-- C10: for every input message list and every sequence of provider
responses, `get_openai_response` leaves the caller's list unchanged: it
copies the list into a fresh cell on entry and appends assistant and tool
messages only to that copy, so after the call the caller's cell holds the
same list as before. -/
theorem caller_list_unchanged (p : Nat → AssistantMsg)
    (loads : String → Except String Args) (env : Option String)
    (http : List (String × String) → HttpOutcome) (st : Store) (r : Nat)
    (hr : r < st.size) :
    (get_openai_response p loads env http st r).store.getCell r = st.getCell r := by
  have hne : r ≠ st.size := Nat.ne_of_lt hr
  have hframe := loopSt_frame p loads env http 5 0 none
    (st.alloc (st.getCell r)).1 (st.alloc (st.getCell r)).2 r hne
  have halloc : ((st.alloc (st.getCell r)).1).cells r = st.cells r := by
    simp [Store.alloc, hne]
  exact hframe.trans halloc

/-- C10 witness: the concrete one-message caller conversation is untouched
by a full tool-calling run. -/
theorem caller_list_unchanged_witness :
    0 < store0.size
    ∧ (get_openai_response pFoo loadsStub none httpOkEmpty store0 0).store.getCell 0
        = store0.getCell 0 :=
  ⟨Nat.zero_lt_one,
   caller_list_unchanged pFoo loadsStub none httpOkEmpty store0 0 Nat.zero_lt_one⟩

end FlightAssistant
